import Mathlib

/-!
Shallow embedding of `.github/ai_Complete.py`.

The script reads two report files, POSTs each one (wrapped in a fixed
instruction line) to a text-generation endpoint, extracts the `result`
field of each JSON response, and writes both suggestions into
`.github/ai_comment.md`.

Modelling choices, all read off the source:
* the filesystem is a map from path to `Option String` (readable content);
* the HTTP server is a map from the posted request to an outcome:
  either a connection-level failure (`requests.post` raises) or a
  response carrying a status code and a body; `resp.json()` fails on a
  body that is not valid JSON, otherwise yields a `JsonVal`;
* Python dynamic-typing failures are explicit errors: `.get` on a
  non-dict is `attributeError`, `x + "…"` or `f.write(x)` on a
  non-string `x` is `typeError`;
* the driver threads the previous content of the output path through,
  so "file neither created nor modified" is expressible, and records
  the list of HTTP requests actually issued.
-/

/-- JSON values, as produced by `resp.json()`. -/
inductive JsonVal where
  | str (s : String)
  | num (n : Int)
  | boolean (b : Bool)
  | null
  | arr (xs : List JsonVal)
  | obj (fields : List (String × JsonVal))

/-- Lookup of a key in the field list of a JSON object (first match). -/
def jsonLookup : List (String × JsonVal) → String → Option JsonVal
  | [], _ => none
  | (k, v) :: rest, key => if k = key then some v else jsonLookup rest key

/-- Python `dict.get(key, default)` on the field list of a JSON object. -/
def jsonGet (fields : List (String × JsonVal)) (key : String) (d : JsonVal) : JsonVal :=
  (jsonLookup fields key).getD d

/-- The JSON body `{"prompt": …, "max_tokens": …}` posted to the endpoint. -/
structure Request where
  prompt : String
  max_tokens : Nat
deriving DecidableEq, Repr

/-- Body of an HTTP response: either not parseable as JSON, or a JSON value. -/
inductive Body where
  | notJson
  | json (v : JsonVal)

/-- Outcome of one `requests.post` call: a connection-level failure
(the call raises) or a response with a status code and a body.
`requests.post` does not raise on a non-2xx status. -/
inductive HttpOutcome where
  | netError
  | response (status : Nat) (body : Body)

/-- The uncaught Python exceptions the script can die with. -/
inductive RunError where
  | indexError
  | fileNotFound
  | networkError
  | jsonDecodeError
  | attributeError
  | typeError
deriving DecidableEq, Repr

/-- The fixed instruction line prepended to each file's content
(source line 7: "请补全并优化如下代码问题："). -/
def promptInstruction : String := "请补全并优化如下代码问题："

/-- The payload built on source line 7:
`{"prompt": f"请补全并优化如下代码问题：\n{content}", "max_tokens": 256}`. -/
def mkPayload (content : String) : Request :=
  ⟨promptInstruction ++ "\n" ++ content, 256⟩

/-- Embedding of `get_ai_suggestion` (source lines 4–10). Returns the
value of the fetch (or the exception it raises) together with the list
of HTTP requests it issued. The status code of a response is never
examined. -/
def get_ai_suggestion (fs : String → Option String) (server : Request → HttpOutcome)
    (report_file : String) : Except RunError JsonVal × List Request :=
  match fs report_file with
  | none => (Except.error RunError.fileNotFound, [])
  | some content =>
    let payload := mkPayload content
    match server payload with
    | HttpOutcome.netError => (Except.error RunError.networkError, [payload])
    | HttpOutcome.response _ Body.notJson =>
      (Except.error RunError.jsonDecodeError, [payload])
    | HttpOutcome.response _ (Body.json (JsonVal.obj fields)) =>
      (Except.ok (jsonGet fields "result" (JsonVal.str "")), [payload])
    | HttpOutcome.response _ (Body.json _) =>
      (Except.error RunError.attributeError, [payload])

/-- Source line 16: `"### AI代码审核与补全建议\n"`. -/
def titleLine : String := "### AI代码审核与补全建议\n"

/-- Source line 17: `"**Lint分析建议：**\n"`. -/
def lintLabel : String := "**Lint分析建议：**\n"

/-- Source line 19: `"**格式化分析与补全：**\n"`. -/
def formatLabel : String := "**格式化分析与补全：**\n"

/-- Python `x + s` for a `str` literal `s`: defined only when `x` is a
`str`, otherwise a `TypeError`. -/
def pyAddStr : JsonVal → String → Except RunError String
  | JsonVal.str a, b => Except.ok (a ++ b)
  | _, _ => Except.error RunError.typeError

/-- Python `f.write(x)`: accepts only a `str` argument, otherwise a
`TypeError`. -/
def pyWriteArg : JsonVal → Except RunError String
  | JsonVal.str a => Except.ok a
  | _ => Except.error RunError.typeError

/-- Embedding of the `with open('.github/ai_comment.md', 'w')` block
(source lines 15–20). Opening with mode `'w'` truncates, then the five
writes run in order; a `TypeError` in the third or fifth write leaves
the content accumulated so far (the `with` block flushes on exception).
Returns the exit outcome and the final content of the output file. -/
def composeOutput (lint_suggest format_suggest : JsonVal) : Except RunError Unit × String :=
  let c := titleLine ++ lintLabel
  match pyAddStr lint_suggest "\n\n" with
  | Except.error e => (Except.error e, c)
  | Except.ok lintPart =>
    let c := c ++ lintPart ++ formatLabel
    match pyWriteArg format_suggest with
    | Except.error e => (Except.error e, c)
    | Except.ok formatPart => (Except.ok (), c ++ formatPart)

/-- Observable result of one run of the script: the exit outcome
(`Except.ok ()` is exit code 0, any error a non-zero exit), the final
content of `.github/ai_comment.md` (`none` if the file does not exist),
and the HTTP requests issued, in order. -/
structure RunResult where
  exit : Except RunError Unit
  output : Option String
  requests : List Request

/-- Embedding of the module top level (source lines 12–20): fetch for
`sys.argv[1]`, then for `sys.argv[2]`, then write the output file.
`initialOutput` is the content of `.github/ai_comment.md` before the
run; it is untouched unless the write step is reached. -/
def runProgram (fs : String → Option String) (server : Request → HttpOutcome)
    (argv : List String) (initialOutput : Option String) : RunResult :=
  match argv[1]? with
  | none => ⟨Except.error RunError.indexError, initialOutput, []⟩
  | some lintPath =>
    match get_ai_suggestion fs server lintPath with
    | (Except.error e, reqs1) => ⟨Except.error e, initialOutput, reqs1⟩
    | (Except.ok lint_suggest, reqs1) =>
      match argv[2]? with
      | none => ⟨Except.error RunError.indexError, initialOutput, reqs1⟩
      | some formatPath =>
        match get_ai_suggestion fs server formatPath with
        | (Except.error e, reqs2) => ⟨Except.error e, initialOutput, reqs1 ++ reqs2⟩
        | (Except.ok format_suggest, reqs2) =>
          let out := composeOutput lint_suggest format_suggest
          ⟨out.fst, some out.snd, reqs1 ++ reqs2⟩

/-- The body of a response, with the status code erased. -/
def statusErase : HttpOutcome → Option Body
  | HttpOutcome.netError => none
  | HttpOutcome.response _ b => some b

/-! ## Concrete fixtures used by the witnesses -/

/-- A sample filesystem with two readable report files. -/
def sampleFs : String → Option String := fun p =>
  if p = "lint.txt" then some "def f(): pass"
  else if p = "fmt.txt" then some "x=1"
  else none

/-- A server answering every request with status 200 and a JSON object
whose `result` field is the string "ok". -/
def sampleServer : Request → HttpOutcome := fun _ =>
  HttpOutcome.response 200 (Body.json (JsonVal.obj [("result", JsonVal.str "ok")]))

/-- A server answering with status 500 and a well-formed JSON body. -/
def errorStatusServer : Request → HttpOutcome := fun _ =>
  HttpOutcome.response 500 (Body.json (JsonVal.obj [("result", JsonVal.str "boom")]))

/-- A server answering with status 200 and a body that is not JSON. -/
def htmlServer : Request → HttpOutcome := fun _ =>
  HttpOutcome.response 200 Body.notJson

/-! ## Claims about `get_ai_suggestion` -/

/-- C2: for every file content (the empty string included), the single
HTTP request issued by the fetch carries the prompt equal to the fixed
instruction line, a newline, then the file's verbatim content, and its
`max_tokens` field is 256. -/
theorem c2_request_shape (fs : String → Option String) (server : Request → HttpOutcome)
    (path content : String) (h : fs path = some content) :
    (get_ai_suggestion fs server path).snd =
      [⟨promptInstruction ++ "\n" ++ content, 256⟩] := by
  simp only [get_ai_suggestion, h]
  cases server (mkPayload content) with
  | netError => rfl
  | response s body =>
    cases body with
    | notJson => rfl
    | json v => cases v <;> rfl

/-- Witness for C2 at a concrete filesystem, server and path. -/
theorem c2_request_shape_witness :
    sampleFs "lint.txt" = some "def f(): pass" ∧
    (get_ai_suggestion sampleFs sampleServer "lint.txt").snd =
      [⟨promptInstruction ++ "\n" ++ "def f(): pass", 256⟩] :=
  ⟨rfl, c2_request_shape sampleFs sampleServer "lint.txt" "def f(): pass" rfl⟩

/-- C7: an unreadable input path makes the fetch raise a fatal
file-not-found error having issued no HTTP request at all. -/
theorem c7_unreadable_aborts_before_network (fs : String → Option String)
    (server : Request → HttpOutcome) (path : String) (h : fs path = none) :
    get_ai_suggestion fs server path = (Except.error RunError.fileNotFound, []) := by
  simp only [get_ai_suggestion, h]

/-- Witness for C7 at a concrete missing path. -/
theorem c7_unreadable_aborts_before_network_witness :
    sampleFs "missing.txt" = none ∧
    get_ai_suggestion sampleFs sampleServer "missing.txt" =
      (Except.error RunError.fileNotFound, []) :=
  ⟨rfl, c7_unreadable_aborts_before_network sampleFs sampleServer "missing.txt" rfl⟩

/-- C6: a response whose body is not valid JSON makes the fetch raise a
fatal JSON-decode error; the empty-string fallback does not apply. -/
theorem c6_body_not_json_fatal (fs : String → Option String)
    (server : Request → HttpOutcome) (path content : String) (s : Nat)
    (hf : fs path = some content)
    (hs : server (mkPayload content) = HttpOutcome.response s Body.notJson) :
    (get_ai_suggestion fs server path).fst = Except.error RunError.jsonDecodeError := by
  simp only [get_ai_suggestion, hf, hs]

/-- Witness for C6 at a concrete file and non-JSON-body server. -/
theorem c6_body_not_json_fatal_witness :
    sampleFs "lint.txt" = some "def f(): pass" ∧
    htmlServer (mkPayload "def f(): pass") = HttpOutcome.response 200 Body.notJson ∧
    (get_ai_suggestion sampleFs htmlServer "lint.txt").fst =
      Except.error RunError.jsonDecodeError :=
  ⟨rfl, rfl, c6_body_not_json_fatal sampleFs htmlServer "lint.txt" "def f(): pass" 200 rfl rfl⟩

/-- C4 (counterexample): a response with the non-2xx status 500 and a
well-formed JSON body does not raise; the fetch succeeds and returns the
body's `result` string. -/
theorem c4_counterexample :
    ¬ (200 ≤ 500 ∧ 500 ≤ 299) ∧
    (get_ai_suggestion sampleFs errorStatusServer "lint.txt").fst =
      Except.ok (JsonVal.str "boom") :=
  ⟨by decide, rfl⟩

/-- C4 (amended): the fetch never examines the status code — two servers
whose responses have identical bodies (and fail identically) produce
identical fetch results, whatever their status codes; in particular a
non-2xx status is silently accepted. -/
theorem c4_amended_status_ignored (fs : String → Option String)
    (server1 server2 : Request → HttpOutcome) (path : String)
    (h : ∀ r, statusErase (server1 r) = statusErase (server2 r)) :
    get_ai_suggestion fs server1 path = get_ai_suggestion fs server2 path := by
  cases hf : fs path with
  | none => simp only [get_ai_suggestion, hf]
  | some content =>
    have hb := h (mkPayload content)
    cases h1 : server1 (mkPayload content) with
    | netError =>
      cases h2 : server2 (mkPayload content) with
      | netError => simp only [get_ai_suggestion, hf, h1, h2]
      | response s2 b2 => rw [h1, h2] at hb; exact absurd hb (by simp [statusErase])
    | response s1 b1 =>
      cases h2 : server2 (mkPayload content) with
      | netError => rw [h1, h2] at hb; exact absurd hb (by simp [statusErase])
      | response s2 b2 =>
        rw [h1, h2] at hb
        simp only [statusErase, Option.some.injEq] at hb
        subst hb
        simp only [get_ai_suggestion, hf, h1, h2]
        cases b1 with
        | notJson => rfl
        | json v => cases v <;> rfl

/-- The `sampleServer` body behind a 500 status instead of a 200 one. -/
def okBody500Server : Request → HttpOutcome := fun _ =>
  HttpOutcome.response 500 (Body.json (JsonVal.obj [("result", JsonVal.str "ok")]))

/-- Witness for the amended C4: a 200 server and a 500 server with the
same bodies give equal fetch results. -/
theorem c4_amended_status_ignored_witness :
    (∀ r, statusErase (sampleServer r) = statusErase (okBody500Server r)) ∧
    get_ai_suggestion sampleFs sampleServer "lint.txt" =
      get_ai_suggestion sampleFs okBody500Server "lint.txt" :=
  ⟨fun _ => rfl,
   c4_amended_status_ignored sampleFs sampleServer okBody500Server "lint.txt" (fun _ => rfl)⟩

/-! ## Claims about the whole run -/

/-- C1: when both input files are readable and both HTTP calls succeed
with JSON objects carrying string `result` values, the run exits 0 and
the output file holds exactly the title line, the lint label line, the
first `result` string, a blank-line separator, the format label line
and the second `result` string — whatever the file held before. -/
theorem c1_success_output (fs : String → Option String) (server : Request → HttpOutcome)
    (argv : List String) (init : Option String)
    (pa pb a b ra rb : String) (sa sb : Nat) (fa fb : List (String × JsonVal))
    (h1 : argv[1]? = some pa) (h2 : argv[2]? = some pb)
    (hfa : fs pa = some a) (hfb : fs pb = some b)
    (hsa : server (mkPayload a) = HttpOutcome.response sa (Body.json (JsonVal.obj fa)))
    (hsb : server (mkPayload b) = HttpOutcome.response sb (Body.json (JsonVal.obj fb)))
    (hra : jsonGet fa "result" (JsonVal.str "") = JsonVal.str ra)
    (hrb : jsonGet fb "result" (JsonVal.str "") = JsonVal.str rb) :
    runProgram fs server argv init =
      ⟨Except.ok (),
       some (titleLine ++ lintLabel ++ ra ++ "\n\n" ++ formatLabel ++ rb),
       [mkPayload a, mkPayload b]⟩ := by
  simp [runProgram, h1, h2, get_ai_suggestion, hfa, hfb, hsa, hsb, hra, hrb,
    composeOutput, pyAddStr, pyWriteArg, String.append_assoc]

/-- A server keyed on the posted prompt, mirroring the concrete
scenario of the spec: a docstring hint for the lint report and a
spacing hint for the format report. -/
def scenarioServer : Request → HttpOutcome := fun r =>
  if r.prompt = promptInstruction ++ "\n" ++ "def f(): pass" then
    HttpOutcome.response 200
      (Body.json (JsonVal.obj [("result", JsonVal.str "Add a docstring.")]))
  else
    HttpOutcome.response 200
      (Body.json (JsonVal.obj [("result", JsonVal.str "Add spaces.")]))

/-- Witness for C1 on the spec's concrete scenario. -/
theorem c1_success_output_witness :
    sampleFs "lint.txt" = some "def f(): pass" ∧
    runProgram sampleFs scenarioServer ["prog", "lint.txt", "fmt.txt"] none =
      ⟨Except.ok (),
       some (titleLine ++ lintLabel ++ "Add a docstring." ++ "\n\n" ++
         formatLabel ++ "Add spaces."),
       [mkPayload "def f(): pass", mkPayload "x=1"]⟩ :=
  ⟨rfl,
   c1_success_output sampleFs scenarioServer ["prog", "lint.txt", "fmt.txt"] none
     "lint.txt" "fmt.txt" "def f(): pass" "x=1" "Add a docstring." "Add spaces."
     200 200 [("result", JsonVal.str "Add a docstring.")]
     [("result", JsonVal.str "Add spaces.")]
     rfl rfl rfl rfl rfl rfl rfl rfl⟩

/-- C3: if either of the two fetches raises, the run leaves the output
file exactly as it was — neither created nor modified — and exits with
a non-zero code. -/
theorem c3_fetch_failure_no_write (fs : String → Option String)
    (server : Request → HttpOutcome) (argv : List String) (init : Option String)
    (pa pb : String)
    (h1 : argv[1]? = some pa) (h2 : argv[2]? = some pb)
    (hfail : (∃ e, (get_ai_suggestion fs server pa).fst = Except.error e) ∨
             (∃ e, (get_ai_suggestion fs server pb).fst = Except.error e)) :
    (runProgram fs server argv init).output = init ∧
    (runProgram fs server argv init).exit ≠ Except.ok () := by
  cases hA : get_ai_suggestion fs server pa with
  | mk fst1 reqs1 =>
    cases fst1 with
    | error e => refine ⟨?_, ?_⟩ <;> simp [runProgram, h1, hA]
    | ok v1 =>
      cases hB : get_ai_suggestion fs server pb with
      | mk fst2 reqs2 =>
        cases fst2 with
        | error e => refine ⟨?_, ?_⟩ <;> simp [runProgram, h1, h2, hA, hB]
        | ok v2 =>
          rw [hA, hB] at hfail
          simp at hfail

/-- Witness for C3: a server whose body is not JSON makes the first
fetch raise, and the previous output file content survives. -/
theorem c3_fetch_failure_no_write_witness :
    (get_ai_suggestion sampleFs htmlServer "lint.txt").fst =
      Except.error RunError.jsonDecodeError ∧
    (runProgram sampleFs htmlServer ["prog", "lint.txt", "fmt.txt"]
      (some "old")).output = some "old" ∧
    (runProgram sampleFs htmlServer ["prog", "lint.txt", "fmt.txt"]
      (some "old")).exit ≠ Except.ok () :=
  ⟨rfl,
   c3_fetch_failure_no_write sampleFs htmlServer ["prog", "lint.txt", "fmt.txt"]
     (some "old") "lint.txt" "fmt.txt" rfl rfl
     (Or.inl ⟨RunError.jsonDecodeError, rfl⟩)⟩

/-- C5: a response that is a JSON object without a `result` key yields
the empty-string suggestion without error, and the run writes the label
line with nothing between it and the blank separator. -/
theorem c5_missing_result_key (fs : String → Option String)
    (server : Request → HttpOutcome) (argv : List String) (init : Option String)
    (pa pb a b rb : String) (sa sb : Nat) (fa fb : List (String × JsonVal))
    (h1 : argv[1]? = some pa) (h2 : argv[2]? = some pb)
    (hfa : fs pa = some a) (hfb : fs pb = some b)
    (hsa : server (mkPayload a) = HttpOutcome.response sa (Body.json (JsonVal.obj fa)))
    (hnokey : jsonLookup fa "result" = none)
    (hsb : server (mkPayload b) = HttpOutcome.response sb (Body.json (JsonVal.obj fb)))
    (hrb : jsonGet fb "result" (JsonVal.str "") = JsonVal.str rb) :
    (get_ai_suggestion fs server pa).fst = Except.ok (JsonVal.str "") ∧
    runProgram fs server argv init =
      ⟨Except.ok (),
       some (titleLine ++ lintLabel ++ "\n\n" ++ formatLabel ++ rb),
       [mkPayload a, mkPayload b]⟩ := by
  have hra : jsonGet fa "result" (JsonVal.str "") = JsonVal.str "" := by
    simp [jsonGet, hnokey]
  refine ⟨?_, ?_⟩
  · simp [get_ai_suggestion, hfa, hsa, hra]
  · simp [runProgram, h1, h2, get_ai_suggestion, hfa, hfb, hsa, hsb, hra, hrb,
      composeOutput, pyAddStr, pyWriteArg, String.append_assoc, String.empty_append]

/-- A server whose JSON object body has no `result` key. -/
def noKeyServer : Request → HttpOutcome := fun r =>
  if r.prompt = promptInstruction ++ "\n" ++ "def f(): pass" then
    HttpOutcome.response 200 (Body.json (JsonVal.obj [("text", JsonVal.str "hi")]))
  else
    HttpOutcome.response 200 (Body.json (JsonVal.obj [("result", JsonVal.str "ok")]))

/-- Witness for C5: the lint response lacks `result`, the format
response has it. -/
theorem c5_missing_result_key_witness :
    jsonLookup [("text", JsonVal.str "hi")] "result" = none ∧
    (get_ai_suggestion sampleFs noKeyServer "lint.txt").fst =
      Except.ok (JsonVal.str "") ∧
    runProgram sampleFs noKeyServer ["prog", "lint.txt", "fmt.txt"] none =
      ⟨Except.ok (),
       some (titleLine ++ lintLabel ++ "\n\n" ++ formatLabel ++ "ok"),
       [mkPayload "def f(): pass", mkPayload "x=1"]⟩ :=
  ⟨rfl,
   c5_missing_result_key sampleFs noKeyServer ["prog", "lint.txt", "fmt.txt"] none
     "lint.txt" "fmt.txt" "def f(): pass" "x=1" "ok" 200 200
     [("text", JsonVal.str "hi")] [("result", JsonVal.str "ok")]
     rfl rfl rfl rfl rfl rfl rfl rfl⟩

/-- The run result is independent of the previous output content
whenever the run exits 0. -/
theorem runProgram_ok_init_irrelevant (fs : String → Option String)
    (server : Request → HttpOutcome) (argv : List String) (init init' : Option String)
    (h : (runProgram fs server argv init).exit = Except.ok ()) :
    runProgram fs server argv init' = runProgram fs server argv init := by
  cases h1 : argv[1]? with
  | none => simp [runProgram, h1] at h
  | some pa =>
    cases hA : get_ai_suggestion fs server pa with
    | mk fst1 reqs1 =>
      cases fst1 with
      | error e => simp [runProgram, h1, hA] at h
      | ok v1 =>
        cases h2 : argv[2]? with
        | none => simp [runProgram, h1, h2, hA] at h
        | some pb =>
          cases hB : get_ai_suggestion fs server pb with
          | mk fst2 reqs2 =>
            cases fst2 with
            | error e => simp [runProgram, h1, h2, hA, hB] at h
            | ok v2 => simp [runProgram, h1, h2, hA, hB]

/-- C8: a successful run is reproduced bit for bit by a second run over
its own output — the file is fully overwritten, nothing accumulates. -/
theorem c8_idempotent_overwrite (fs : String → Option String)
    (server : Request → HttpOutcome) (argv : List String) (init : Option String)
    (h : (runProgram fs server argv init).exit = Except.ok ()) :
    runProgram fs server argv (runProgram fs server argv init).output =
      runProgram fs server argv init :=
  runProgram_ok_init_irrelevant fs server argv init
    (runProgram fs server argv init).output h

/-- Witness for C8 on a concrete successful run. -/
theorem c8_idempotent_overwrite_witness :
    (runProgram sampleFs sampleServer ["prog", "lint.txt", "fmt.txt"] none).exit =
      Except.ok () ∧
    runProgram sampleFs sampleServer ["prog", "lint.txt", "fmt.txt"]
        (runProgram sampleFs sampleServer ["prog", "lint.txt", "fmt.txt"] none).output =
      runProgram sampleFs sampleServer ["prog", "lint.txt", "fmt.txt"] none :=
  ⟨rfl,
   c8_idempotent_overwrite sampleFs sampleServer ["prog", "lint.txt", "fmt.txt"]
     none rfl⟩

/-- C9: the run depends on the argument vector only through positions 1
and 2 — two invocations agreeing there behave identically, so extra
trailing arguments are silently ignored, not rejected. -/
theorem c9_extra_args_ignored (fs : String → Option String)
    (server : Request → HttpOutcome) (init : Option String)
    (argv argv' : List String)
    (h1 : argv[1]? = argv'[1]?) (h2 : argv[2]? = argv'[2]?) :
    runProgram fs server argv init = runProgram fs server argv' init := by
  unfold runProgram
  rw [h1, h2]

/-- Witness for C9: two extra trailing arguments change nothing. -/
theorem c9_extra_args_ignored_witness :
    (["prog", "lint.txt", "fmt.txt"] : List String)[1]? =
      (["prog", "lint.txt", "fmt.txt", "--verbose", "extra"] : List String)[1]? ∧
    runProgram sampleFs sampleServer ["prog", "lint.txt", "fmt.txt"] none =
      runProgram sampleFs sampleServer
        ["prog", "lint.txt", "fmt.txt", "--verbose", "extra"] none :=
  ⟨rfl,
   c9_extra_args_ignored sampleFs sampleServer none
     ["prog", "lint.txt", "fmt.txt"]
     ["prog", "lint.txt", "fmt.txt", "--verbose", "extra"] rfl rfl⟩

/-- A JSON value that is a Python `str`. -/
def JsonVal.isStr : JsonVal → Bool
  | JsonVal.str _ => true
  | _ => false

/-- Concatenating a string onto a non-string raises a `TypeError`. -/
theorem pyAddStr_of_not_str (v : JsonVal) (x : String) (h : v.isStr = false) :
    pyAddStr v x = Except.error RunError.typeError := by
  cases v <;> first | rfl | simp [JsonVal.isStr] at h

/-- C10: a `result` value that is not a string is returned by the fetch
without error; the run then dies with a type error while writing, after
truncation, leaving exactly the title and lint label lines — even
though both fetches completed. -/
theorem c10_nonstring_result_truncated_write (fs : String → Option String)
    (server : Request → HttpOutcome) (argv : List String) (init : Option String)
    (pa pb a b : String) (sa sb : Nat) (fa fb : List (String × JsonVal)) (v : JsonVal)
    (h1 : argv[1]? = some pa) (h2 : argv[2]? = some pb)
    (hfa : fs pa = some a) (hfb : fs pb = some b)
    (hsa : server (mkPayload a) = HttpOutcome.response sa (Body.json (JsonVal.obj fa)))
    (hv : jsonGet fa "result" (JsonVal.str "") = v)
    (hns : v.isStr = false)
    (hsb : server (mkPayload b) = HttpOutcome.response sb (Body.json (JsonVal.obj fb))) :
    (get_ai_suggestion fs server pa).fst = Except.ok v ∧
    runProgram fs server argv init =
      ⟨Except.error RunError.typeError, some (titleLine ++ lintLabel),
       [mkPayload a, mkPayload b]⟩ := by
  have hadd : pyAddStr v "\n\n" = Except.error RunError.typeError :=
    pyAddStr_of_not_str v "\n\n" hns
  refine ⟨?_, ?_⟩
  · simp [get_ai_suggestion, hfa, hsa, hv]
  · simp [runProgram, h1, h2, get_ai_suggestion, hfa, hfb, hsa, hsb, hv,
      composeOutput, hadd]

/-- A server whose `result` value is the JSON number 7. -/
def numResultServer : Request → HttpOutcome := fun _ =>
  HttpOutcome.response 200 (Body.json (JsonVal.obj [("result", JsonVal.num 7)]))

/-- Witness for C10 with a numeric `result` value. -/
theorem c10_nonstring_result_truncated_write_witness :
    (get_ai_suggestion sampleFs numResultServer "lint.txt").fst =
      Except.ok (JsonVal.num 7) ∧
    runProgram sampleFs numResultServer ["prog", "lint.txt", "fmt.txt"] none =
      ⟨Except.error RunError.typeError, some (titleLine ++ lintLabel),
       [mkPayload "def f(): pass", mkPayload "x=1"]⟩ :=
  c10_nonstring_result_truncated_write sampleFs numResultServer
    ["prog", "lint.txt", "fmt.txt"] none "lint.txt" "fmt.txt"
    "def f(): pass" "x=1" 200 200
    [("result", JsonVal.num 7)] [("result", JsonVal.num 7)] (JsonVal.num 7)
    rfl rfl rfl rfl rfl rfl rfl rfl
